import Mathlib

/-!
Shallow embedding of `downloader.py` (effective-pandas data downloader).

The script has two pipelines:
* `download_weather`: fetches station directories for 51 MESONet networks,
  fans out one fetch task per network group over a thread pool, writes one
  intermediate CSV per group, then concatenates and sorts them into a single
  store; if the store file already exists the fan-out and merge are skipped.
* `download_flights`: reads a local request-payload template file, then
  downloads/extracts/caches a flights table.

Cells of a parsed weather table are modelled by `WValue`.  A parsed numeric
cell keeps the literal's decimal mantissa and its count of fraction digits
(so `10.9` is mantissa 109 with one fraction digit); the claims under study
depend only on whether a token parses as a number, not on float arithmetic.
Timestamp parsing (`pd.to_datetime`) is modelled as tagging the raw string,
which for the zero-padded MESONet timestamp format preserves chronological
order under character-wise comparison.  String splitting, trimming and
comparison are implemented here over the character lists of strings, so
that every definition evaluates by kernel reduction.
-/

/-! ## Character-list string primitives -/

/-- Split a character list at every occurrence of `sep`. -/
def chars_split (sep : Char) : List Char → List (List Char)
  | [] => [[]]
  | c :: cs =>
    match chars_split sep cs with
    | [] => if c = sep then [[], []] else [[c]]
    | h :: t => if c = sep then [] :: h :: t else (c :: h) :: t

/-- Split a string at every occurrence of `sep`, like Python `split`. -/
def str_split (sep : Char) (s : String) : List String :=
  (chars_split sep s.data).map String.mk

/-- Whether a string begins with the CSV comment character. -/
def starts_with_hash (s : String) : Bool :=
  match s.data with
  | [] => false
  | c :: _ => c = '#'

/-- Remove leading and trailing whitespace, like `str.strip`. -/
def str_trim (s : String) : String :=
  String.mk (((s.data.dropWhile Char.isWhitespace).reverse.dropWhile
    Char.isWhitespace).reverse)

/-- The natural number denoted by a list of decimal digit characters. -/
def digits_to_nat (l : List Char) : Nat :=
  l.foldl (fun n c => 10 * n + (c.toNat - 48)) 0

/-- Strict lexicographic order on character lists, by code point. -/
def chars_lt : List Char → List Char → Bool
  | [], [] => false
  | [], _ :: _ => true
  | _ :: _, [] => false
  | a :: as, b :: bs =>
    if a.toNat < b.toNat then true
    else if b.toNat < a.toNat then false
    else chars_lt as bs

/-- Lexicographic order on character lists, by code point. -/
def chars_le : List Char → List Char → Bool
  | [], _ => true
  | _ :: _, [] => false
  | a :: as, b :: bs =>
    if a.toNat < b.toNat then true
    else if b.toNat < a.toNat then false
    else chars_le as bs

/-- Strict lexicographic order on strings. -/
def str_lt (a b : String) : Bool := chars_lt a.data b.data

/-- Lexicographic order on strings. -/
def str_le (a b : String) : Bool := chars_le a.data b.data

/-! ## Data model -/

/-- A cell of a weather table: a raw string, a parsed number (decimal
mantissa and count of fraction digits), a parsed timestamp (kept as its
zero-padded string), or a missing value. -/
inductive WValue where
  | str (s : String)
  | num (mantissa : Int) (frac : Nat)
  | dt (s : String)
  | missing
deriving DecidableEq

/-- A row of an indexed weather table: the (station, timestamp) index pair
followed by the remaining cells. -/
abbrev WRow := (String × String) × List WValue

/-- An un-indexed table, as produced by `pd.read_csv`: column names plus
rows of cells. -/
structure RawFrame where
  columns : List String
  rows : List (List WValue)
deriving DecidableEq

/-- A table indexed by (station, timestamp), as produced by `set_index`. -/
structure WeatherFrame where
  columns : List String
  rows : List WRow
deriving DecidableEq

/-! ## The parsing steps of `get_weather` (source lines 29-38) -/

/-- Model of `pd.read_csv(..., comment="#")` on the fetched payload: comment
lines are dropped, the first remaining line is the header, and every data
cell starts out as a raw string. -/
def read_csv_comment (payload : List String) : RawFrame :=
  match payload.filter (fun l => !(starts_with_hash l)) with
  | [] => { columns := [], rows := [] }
  | header :: body =>
    { columns := str_split ',' header
      rows := body.map (fun l => (str_split ',' l).map WValue.str) }

/-- Model of `.rename(columns=\x7b"valid": "date"\x7d)` (source line 31). -/
def rename_valid_to_date (f : RawFrame) : RawFrame :=
  { f with columns := f.columns.map (fun c => if c = "valid" then "date" else c) }

/-- Model of `.rename(columns=str.strip)` (source line 32). -/
def strip_column_names (f : RawFrame) : RawFrame :=
  { f with columns := f.columns.map str_trim }

/-- Model of `pd.to_datetime` on one cell: a raw string becomes a parsed
timestamp tagged with its (zero-padded, hence order-preserving) text. -/
def to_datetime_value : WValue → WValue
  | .str s => .dt s
  | v => v

/-- Replace the cell at position `i` of a row. -/
def update_at : Nat → (WValue → WValue) → List WValue → List WValue
  | _, _, [] => []
  | 0, g, v :: vs => g v :: vs
  | i + 1, g, v :: vs => v :: update_at i g vs

/-- Model of `.assign(date=lambda df: pd.to_datetime(df["date"]))` (source
line 33): the `date` column is looked up (`KeyError` when absent) and every
cell in it is parsed to a timestamp. -/
def assign_date_to_datetime (f : RawFrame) : Except String RawFrame :=
  match f.columns.findIdx? (fun c => c == "date") with
  | none => Except.error "KeyError: date"
  | some i => Except.ok { f with rows := f.rows.map (update_at i to_datetime_value) }

/-- The text used when a cell becomes part of the index; index cells here
are always raw strings or parsed timestamps. -/
def key_string : WValue → String
  | .str s => s
  | .dt s => s
  | _ => ""

/-- Drop the elements at positions `i` and `j` of a list. -/
def remove_positions (i j : Nat) (l : List α) : List α :=
  (l.enum.filter (fun p => !(p.1 == i) && !(p.1 == j))).map Prod.snd

/-- Model of `.set_index(["station", "date"])` (source line 34): the two
index columns are removed from the column list and each row is keyed by its
(station, date) cells; `KeyError` when either column is absent. -/
def set_index_station_date (f : RawFrame) : Except String WeatherFrame :=
  match f.columns.findIdx? (fun c => c == "station"),
        f.columns.findIdx? (fun c => c == "date") with
  | some i, some j =>
    Except.ok
      { columns := remove_positions i j f.columns
        rows := f.rows.map (fun r =>
          ((key_string (r.getD i .missing), key_string (r.getD j .missing)),
            remove_positions i j r)) }
  | _, _ => Except.error "KeyError: station or date"

/-- Ascending order on (station, timestamp) index pairs: by station, then by
timestamp text. -/
def key_le (a b : String × String) : Prop :=
  str_lt a.1 b.1 = true ∨ (a.1 = b.1 ∧ str_le a.2 b.2 = true)

/-- Row order induced by `key_le` on the index pair. -/
def row_le (r s : WRow) : Prop := key_le r.1 s.1

instance key_le_dec : DecidableRel key_le := fun a b => by
  unfold key_le; infer_instance

instance row_le_dec : DecidableRel row_le := fun r s => by
  unfold row_le key_le; infer_instance

/-- Model of `.sort_index()` (source line 35): rows sorted ascending by the
(station, date) index. -/
def sort_index (f : WeatherFrame) : WeatherFrame :=
  { f with rows := List.insertionSort row_le f.rows }

/-- The seven numeric measurement columns (source line 36). -/
def float_cols : List String :=
  ["tmpf", "relh", "sped", "mslp", "p01i", "vsby", "gust_mph"]

/-- Parse the digits of an unsigned decimal literal to mantissa and
fraction length. -/
def parse_unsigned (l : List Char) : Option (Int × Nat) :=
  match chars_split '.' l with
  | [a] =>
    if !a.isEmpty && a.all Char.isDigit then some ((digits_to_nat a : Int), 0)
    else none
  | [a, b] =>
    if !a.isEmpty && !b.isEmpty && a.all Char.isDigit && b.all Char.isDigit then
      some ((digits_to_nat (a ++ b) : Int), b.length)
    else none
  | _ => none

/-- Parse a decimal literal (optional minus sign, digits, optional fraction
part); `none` when the token is not a number. -/
def parse_decimal (s : String) : Option (Int × Nat) :=
  match s.data with
  | '-' :: rest => (parse_unsigned rest).map (fun p => (-p.1, p.2))
  | l => parse_unsigned l

/-- Model of scalar `pd.to_numeric(v, errors=...)` once the errors mode has
been validated: numbers pass through, unparseable tokens become missing
under mode `coerce`, raise under mode `raise`, and are kept under mode
`ignore`. -/
def to_numeric_cell (errors : String) (v : WValue) : Except String WValue :=
  match v with
  | .num m f => Except.ok (.num m f)
  | .missing => Except.ok .missing
  | .str s =>
    match parse_decimal s with
    | some p => Except.ok (.num p.1 p.2)
    | none =>
      if errors = "coerce" then Except.ok .missing
      else if errors = "raise" then Except.error ("Unable to parse string " ++ s)
      else Except.ok (.str s)
  | .dt s =>
    if errors = "coerce" then Except.ok .missing
    else if errors = "raise" then Except.error ("Unable to parse string " ++ s)
    else Except.ok (.dt s)

/-- Model of `weather[float_cols] = weather[float_cols].apply(pd.to_numeric,
errors=...)` (source line 37): selecting the columns raises `KeyError` when
one is absent, then `pd.to_numeric` validates the errors mode before
parsing anything, then each cell of the selected columns is converted. -/
def coerce_columns (cols : List String) (errors : String) (f : WeatherFrame) :
    Except String WeatherFrame :=
  if !(cols.all (fun c => f.columns.contains c)) then
    Except.error "KeyError: a measurement column is missing"
  else if !(errors == "ignore" || errors == "raise" || errors == "coerce") then
    Except.error "invalid error value specified"
  else
    (f.rows.mapM (fun (r : WRow) =>
      ((r.2.enum.mapM (fun p =>
        if cols.contains (f.columns.getD p.1 "") then to_numeric_cell errors p.2
        else Except.ok p.2)).map (fun cs => (r.1, cs))))).map
      (fun rs => { f with rows := rs })

/-- The first six parsing steps of `get_weather` (source lines 29-35), in
source order: strip comment lines, rename `valid` to `date`, trim column
names, parse the timestamp column, set the (station, date) index, sort by
that index. -/
def get_weather_parse (payload : List String) : Except String WeatherFrame := do
  let f0 := read_csv_comment payload
  let f1 := rename_valid_to_date f0
  let f2 := strip_column_names f1
  let f3 ← assign_date_to_datetime f2
  let f4 ← set_index_station_date f3
  Except.ok (sort_index f4)

/-- Model of `get_weather` applied to a fetched payload (source lines
29-38): the six structural steps followed by numeric coercion of the seven
measurement columns, invoked with the errors mode literally written in the
source, `"corce"`. -/
def get_weather (payload : List String) : Except String WeatherFrame :=
  get_weather_parse payload >>= coerce_columns float_cols "corce"

/-! ## The weather coordinator (source lines 41-82) -/

/-- The index pairs of a list of table rows. -/
def keys_of (rows : List WRow) : List (String × String) :=
  rows.map Prod.fst

/-- Model of `weather_worker` (source lines 48-50) under an abstract fetch
outcome: on success the intermediate file (the table rows) is written; on an
exception nothing is written, and the exception stays inside the future
because the coordinator never calls `result()` on it. -/
def weather_worker_file (outcome : Except String (List WRow)) : Option (List WRow) :=
  outcome.toOption

/-- The intermediate files present after the fan-out (source lines 68-72):
one per successful task, in group order; failed tasks contribute nothing. -/
def fanout_files (outcomes : List (Except String (List WRow))) : List (List WRow) :=
  outcomes.filterMap weather_worker_file

/-- Model of the merge step (source lines 74-77): `pd.concat` of every
intermediate file, then `sort_index()`; `pd.concat` of an empty list raises
`ValueError`. -/
def merge_step (files : List (List WRow)) : Except String (List WRow) :=
  if files.isEmpty then Except.error "No objects to concatenate"
  else Except.ok (List.insertionSort row_le files.flatten)

/-- The fifty state codes of the `states` literal (source lines 54-56). -/
def states : List String :=
  ["AK", "AL", "AR", "AZ", "CA", "CO", "CT", "DE", "FL", "GA",
   "HI", "IA", "ID", "IL", "IN", "KS", "KY", "LA", "MA", "MD",
   "ME", "MI", "MN", "MO", "MS", "MT", "NC", "ND", "NE", "NH",
   "NJ", "NM", "NV", "NY", "OH", "OK", "OR", "PA", "RI", "SC",
   "SD", "TN", "TX", "UT", "VA", "VT", "WA", "WI", "WV", "WY"]

/-- The queried networks: Iowa AWOS plus one ASOS network per state (source
line 59). -/
def networks : List String :=
  "AWOS" :: states.map (fun s => s ++ "_ASOS")

/-- Observable record of one run of `download_weather`: how many network
requests were issued, how many fan-out tasks ran, whether the merge ran, and
the returned table. -/
structure WeatherRunLog where
  networkCalls : Nat
  fanoutTasks : Nat
  mergeRan : Bool
  result : Except String (List WRow)

/-- Model of `download_weather` (source lines 53-82), parameterised by the
per-network fetch outcome and by whether the store file and its content
exist.  The station-directory fetch (source lines 61-62, one request per
network) runs before the store-existence check (source line 66); only the
fan-out and the merge are guarded by it. -/
def download_weather_model (fetch : String → Except String (List WRow))
    (storeExists : Bool) (stored : List WRow) : WeatherRunLog :=
  let dirCalls := networks.length
  if !storeExists then
    let files := fanout_files (networks.map fetch)
    { networkCalls := dirCalls + networks.length
      fanoutTasks := networks.length
      mergeRan := true
      result := merge_step files }
  else
    { networkCalls := dirCalls
      fanoutTasks := 0
      mergeRan := false
      result := Except.ok stored }

/-- The successive amounts passed to `pbar.update` during the fan-out
(source lines 70-72): the loop runs `pbar.update(i)` for the i-th completed
task, `i` counted from zero by `enumerate`. -/
def pbar_updates (k : Nat) : List Nat :=
  List.range k

/-- The count displayed by the progress bar after `k` task completions: the
bar starts at zero and each completion adds its `enumerate` index. -/
def pbar_after (k : Nat) : Nat :=
  (pbar_updates k).sum

/-! ## The top-level entry point and the flights pipeline -/

/-- The two pipeline steps of the script. -/
inductive PipelineStep where
  | weather
  | flights
deriving DecidableEq

/-- Model of `download_all` (source lines 166-168): the sequence of steps it
invokes, in order. -/
def download_all_calls : List PipelineStep :=
  [PipelineStep.weather, PipelineStep.flights]

/-- A calendar date, used for the request window. -/
structure DateYMD where
  y : Nat
  m : Nat
  d : Nat
deriving DecidableEq

/-- The request `get_weather` issues: the window bounds and the joined
station query fragment. -/
structure MesonetRequest where
  start : DateYMD
  stop : DateYMD
  stations : String
deriving DecidableEq

/-- Default window start declared in the signature of `get_weather` (source
line 15): 2017-01-01. -/
def get_weather_default_start : DateYMD := ⟨2017, 1, 1⟩

/-- Default window end declared in the signature of `get_weather` (source
line 16): 2017-01-31. -/
def get_weather_default_stop : DateYMD := ⟨2017, 1, 31⟩

/-- Model of the station query fragment built at source line 27. -/
def station_query (stations : List String) : String :=
  String.intercalate "&" (stations.map (fun s => "station=" ++ s))

/-- The request built by `get_weather` from its arguments (source lines
20-29). -/
def get_weather_request (stations : List String) (start stop : DateYMD) :
    MesonetRequest :=
  { start := start, stop := stop, stations := station_query stations }

/-- The request issued by `weather_worker` (source line 49): it passes only
the station-identifier list, so Python fills `start` and `stop` with the
defaults declared in the signature of `get_weather`. -/
def weather_worker_request (ids : List String) : MesonetRequest :=
  get_weather_request ids get_weather_default_start get_weather_default_stop

/-- The on-disk state `download_flights` runs against: whether the payload
template file, the cached ZIP, and the cached extracted table exist. -/
structure FlightsState where
  templateExists : Bool
  zipExists : Bool
  h5Exists : Bool
deriving DecidableEq

/-- Observable outcome of `download_flights`: whether the returned table
came from the cached store, and how many network requests were issued. -/
structure FlightsRunLog where
  fromStore : Bool
  networkCalls : Nat
deriving DecidableEq

/-- Model of `download_flights` (source lines 85-163): the payload template
file `modern-1-url.txt` is opened at source line 140, before either cache
check, so its absence fails the whole call; otherwise the ZIP is fetched
only when absent and the table is re-parsed only when the store is absent. -/
def download_flights_model (st : FlightsState) : Except String FlightsRunLog :=
  if !st.templateExists then
    Except.error "FileNotFoundError: modern-1-url.txt"
  else
    let netCalls := if st.zipExists then 0 else 1
    Except.ok { fromStore := st.h5Exists, networkCalls := netCalls }

/-! ## Properties of the character-list orders -/

theorem char_toNat_inj {a b : Char} (h : a.toNat = b.toNat) : a = b := by
  apply Char.ext
  exact UInt32.toNat.inj h

theorem string_data_inj {a b : String} (h : a.data = b.data) : a = b :=
  congrArg String.mk h

theorem chars_le_total : ∀ as bs : List Char,
    chars_le as bs = true ∨ chars_le bs as = true := by
  intro as
  induction as with
  | nil => intro bs; exact Or.inl rfl
  | cons a as ih =>
    intro bs
    cases bs with
    | nil => exact Or.inr rfl
    | cons b bs =>
      rcases Nat.lt_trichotomy a.toNat b.toNat with h | h | h
      · left; simp [chars_le, h]
      · rcases ih bs with h2 | h2
        · left; simp [chars_le, h, h2]
        · right; simp [chars_le, h, h2]
      · right; simp [chars_le, h]

theorem chars_lt_trichotomy : ∀ as bs : List Char,
    chars_lt as bs = true ∨ as = bs ∨ chars_lt bs as = true := by
  intro as
  induction as with
  | nil =>
    intro bs
    cases bs with
    | nil => exact Or.inr (Or.inl rfl)
    | cons b bs => exact Or.inl rfl
  | cons a as ih =>
    intro bs
    cases bs with
    | nil => exact Or.inr (Or.inr rfl)
    | cons b bs =>
      rcases Nat.lt_trichotomy a.toNat b.toNat with h | h | h
      · left; simp [chars_lt, h]
      · have hab : a = b := char_toNat_inj h
        rcases ih bs with h2 | h2 | h2
        · left; simp [chars_lt, h, h2]
        · right; left; rw [hab, h2]
        · right; right; simp [chars_lt, h, h2]
      · right; right; simp [chars_lt, h]

theorem chars_lt_trans :
    ∀ as bs cs : List Char, chars_lt as bs = true → chars_lt bs cs = true →
      chars_lt as cs = true := by
  intro as
  induction as with
  | nil =>
    intro bs cs h1 h2
    cases bs with
    | nil => simp [chars_lt] at h1
    | cons b bs =>
      cases cs with
      | nil => simp [chars_lt] at h2
      | cons c cs => rfl
  | cons a as ih =>
    intro bs cs h1 h2
    cases bs with
    | nil => simp [chars_lt] at h1
    | cons b bs =>
      cases cs with
      | nil => simp [chars_lt] at h2
      | cons c cs =>
        rcases Nat.lt_trichotomy a.toNat b.toNat with hab | hab | hab
        · rcases Nat.lt_trichotomy b.toNat c.toNat with hbc | hbc | hbc
          · simp [chars_lt, Nat.lt_trans hab hbc]
          · simp [chars_lt, hbc ▸ hab]
          · simp [chars_lt, hbc, Nat.lt_asymm hbc] at h2
        · rcases Nat.lt_trichotomy b.toNat c.toNat with hbc | hbc | hbc
          · have hac : a.toNat < c.toNat := by omega
            simp [chars_lt, hac]
          · have h1r : chars_lt as bs = true := by
              simpa [chars_lt, hab] using h1
            have h2r : chars_lt bs cs = true := by
              simpa [chars_lt, hbc] using h2
            have hac : ¬ a.toNat < c.toNat := by omega
            have hca : ¬ c.toNat < a.toNat := by omega
            simp [chars_lt, hac, hca, ih bs cs h1r h2r]
          · simp [chars_lt, hbc, Nat.lt_asymm hbc] at h2
        · simp [chars_lt, hab, Nat.lt_asymm hab] at h1

theorem chars_le_trans :
    ∀ as bs cs : List Char, chars_le as bs = true → chars_le bs cs = true →
      chars_le as cs = true := by
  intro as
  induction as with
  | nil => intro bs cs _ _; rfl
  | cons a as ih =>
    intro bs cs h1 h2
    cases bs with
    | nil => simp [chars_le] at h1
    | cons b bs =>
      cases cs with
      | nil => simp [chars_le] at h2
      | cons c cs =>
        rcases Nat.lt_trichotomy a.toNat b.toNat with hab | hab | hab
        · rcases Nat.lt_trichotomy b.toNat c.toNat with hbc | hbc | hbc
          · simp [chars_le, Nat.lt_trans hab hbc]
          · simp [chars_le, hbc ▸ hab]
          · simp [chars_le, hbc, Nat.lt_asymm hbc] at h2
        · rcases Nat.lt_trichotomy b.toNat c.toNat with hbc | hbc | hbc
          · have hac : a.toNat < c.toNat := by omega
            simp [chars_le, hac]
          · have h1r : chars_le as bs = true := by
              simpa [chars_le, hab] using h1
            have h2r : chars_le bs cs = true := by
              simpa [chars_le, hbc] using h2
            have hac : ¬ a.toNat < c.toNat := by omega
            have hca : ¬ c.toNat < a.toNat := by omega
            simp [chars_le, hac, hca, ih bs cs h1r h2r]
          · simp [chars_le, hbc, Nat.lt_asymm hbc] at h2
        · simp [chars_le, hab, Nat.lt_asymm hab] at h1

theorem key_le_total (a b : String × String) : key_le a b ∨ key_le b a := by
  rcases chars_lt_trichotomy a.1.data b.1.data with h | h | h
  · exact Or.inl (Or.inl h)
  · have he : a.1 = b.1 := string_data_inj h
    rcases chars_le_total a.2.data b.2.data with h2 | h2
    · exact Or.inl (Or.inr ⟨he, h2⟩)
    · exact Or.inr (Or.inr ⟨he.symm, h2⟩)
  · exact Or.inr (Or.inl h)

theorem key_le_trans {a b c : String × String} :
    key_le a b → key_le b c → key_le a c := by
  rintro (h1 | ⟨e1, l1⟩) (h2 | ⟨e2, l2⟩)
  · exact Or.inl (chars_lt_trans _ _ _ h1 h2)
  · exact Or.inl (e2 ▸ h1)
  · left; rw [e1]; exact h2
  · exact Or.inr ⟨e1.trans e2, chars_le_trans _ _ _ l1 l2⟩

instance : IsTotal WRow row_le := ⟨fun r s => key_le_total r.1 s.1⟩

instance : IsTrans WRow row_le := ⟨fun _ _ _ h1 h2 => key_le_trans h1 h2⟩

/-! ## Decidability helpers and general lemmas -/

deriving instance DecidableEq for Except

instance {α : Type} [DecidableEq α] (l₁ l₂ : List α) : Decidable (l₁.Disjoint l₂) :=
  decidable_of_iff (∀ a ∈ l₁, a ∉ l₂) (by rw [List.disjoint_left])

theorem two_mul_pbar_after (k : Nat) : 2 * pbar_after k = k * (k - 1) := by
  induction k with
  | zero => rfl
  | succ n ih =>
    have hr : pbar_after (n + 1) = pbar_after n + n := by
      simp [pbar_after, pbar_updates, List.range_succ]
    rw [hr, Nat.mul_add, ih]
    cases n with
    | zero => rfl
    | succ m =>
      simp only [Nat.succ_sub_one]
      ring

theorem pbar_after_closed (k : Nat) : pbar_after k = k * (k - 1) / 2 := by
  rw [← two_mul_pbar_after k, Nat.mul_div_cancel_left _ (by norm_num : (0 : ℕ) < 2)]

/-! ## Concrete payloads and frames used by the evaluation theorems -/

/-- A two-station payload exercising every parsing step: a comment line, a
padded column name, and rows arriving in non-sorted station order. -/
def payload_two_stations : List String :=
  [ "#DEBUG: network metadata",
    "station,valid, tmpf,relh,sped,mslp,p01i,vsby,gust_mph",
    "DSM,2017-01-03 00:54,M,80.3,5.0,1020.1,0.0,10.0,M",
    "AMW,2017-01-03 00:53,10.9,75.2,8.1,1019.8,0.0,9.0,M" ]

/-- The table the six structural steps produce from
`payload_two_stations`: comment line gone, columns renamed and trimmed,
timestamps parsed, (station, date) index set, rows sorted ascending. -/
def frame_two_stations : WeatherFrame :=
  { columns := ["tmpf", "relh", "sped", "mslp", "p01i", "vsby", "gust_mph"]
    rows :=
      [ (("AMW", "2017-01-03 00:53"),
          [.str "10.9", .str "75.2", .str "8.1", .str "1019.8", .str "0.0",
           .str "9.0", .str "M"]),
        (("DSM", "2017-01-03 00:54"),
          [.str "M", .str "80.3", .str "5.0", .str "1020.1", .str "0.0",
           .str "10.0", .str "M"]) ] }

/-- A single-row payload whose `tmpf` cell holds the MESONet missing marker
`M` amid otherwise numeric measurement cells. -/
def payload_bad_value : List String :=
  [ "station,valid,tmpf,relh,sped,mslp,p01i,vsby,gust_mph,skyc1",
    "DSM,2017-01-05 00:54,M,75,8,1020,0,10,10.9,OVC" ]

/-- The table the six structural steps produce from `payload_bad_value`. -/
def frame_bad_value : WeatherFrame :=
  { columns := ["tmpf", "relh", "sped", "mslp", "p01i", "vsby", "gust_mph", "skyc1"]
    rows :=
      [ (("DSM", "2017-01-05 00:54"),
          [.str "M", .str "75", .str "8", .str "1020", .str "0", .str "10",
           .str "10.9", .str "OVC"]) ] }

/-- What numeric coercion of `frame_bad_value` under the valid mode
`coerce` yields: the malformed `tmpf` cell becomes missing, every other
measurement cell parses, and the non-measurement column is untouched. -/
def frame_bad_value_coerced : WeatherFrame :=
  { columns := ["tmpf", "relh", "sped", "mslp", "p01i", "vsby", "gust_mph", "skyc1"]
    rows :=
      [ (("DSM", "2017-01-05 00:54"),
          [.missing, .num 75 0, .num 8 0, .num 1020 0, .num 0 0, .num 10 0,
           .num 109 1, .str "OVC"]) ] }

/-- A per-group file holding the same (station, timestamp) pair twice. -/
def dup_file : List WRow :=
  [ (("AMW", "2017-01-01 00:00"), []), (("AMW", "2017-01-01 00:00"), []) ]

/-- A one-row per-group file for station AMW. -/
def file_amw : List WRow := [ (("AMW", "2017-01-03 00:53"), []) ]

/-- A one-row per-group file for station DSM. -/
def file_dsm : List WRow := [ (("DSM", "2017-01-03 00:54"), []) ]

/-! ## Claim theorems -/

/-- C1, counterexample: with the weather store already present, the run
still issues one station-directory request per network - 51 requests, not
zero - because the directory fetch precedes the store-existence check. -/
theorem C1_counterexample :
    (download_weather_model (fun _ => Except.error "offline") true []).networkCalls = 51 ∧
    (download_weather_model (fun _ => Except.error "offline") true []).networkCalls ≠ 0 :=
  ⟨rfl, by decide⟩

/-- C1, amended: when the weather store exists, the fan-out and the merge
are skipped and the stored table is returned unchanged, but the
station-directory fetch still runs, issuing one network request per
network (51 in total). -/
theorem C1_store_exists_run (fetch : String → Except String (List WRow))
    (stored : List WRow) :
    download_weather_model fetch true stored =
      { networkCalls := networks.length, fanoutTasks := 0, mergeRan := false,
        result := Except.ok stored } ∧ networks.length = 51 :=
  ⟨rfl, rfl⟩

/-- C2: on a payload with one malformed measurement cell, the coercion step
as written raises `invalid error value specified` (the errors mode in the
source is the misspelling `corce`), instead of mapping the cell to missing;
under the intended mode `coerce` the same table coerces exactly as the
claim describes. -/
theorem C2_coercion_raises_not_coerces :
    get_weather payload_bad_value = Except.error "invalid error value specified" ∧
    get_weather_parse payload_bad_value = Except.ok frame_bad_value ∧
    coerce_columns float_cols "coerce" frame_bad_value = Except.ok frame_bad_value_coerced :=
  ⟨by decide, by decide, by decide⟩

/-- C3: the progress bar adds the `enumerate` index instead of one per
completion, so it displays 0 after the first completion and, in general,
k * (k - 1) / 2 after the k-th completion rather than k. -/
theorem C3_progress_displays_running_sum :
    pbar_after 1 = 0 ∧ ¬ pbar_after 1 = 1 ∧ ∀ k, pbar_after k = k * (k - 1) / 2 :=
  ⟨rfl, by decide, pbar_after_closed⟩

/-- C4, counterexample: the flights step is invoked by the top-level
`download_all` entry point, contrary to the claim that it is not wired in. -/
theorem C4_counterexample : PipelineStep.flights ∈ download_all_calls := by
  decide

/-- C4, amended: the top-level entry point invokes the weather pipeline and
then the flights download step, in that order. -/
theorem C4_download_all_invokes_both :
    download_all_calls = [PipelineStep.weather, PipelineStep.flights] :=
  rfl

/-- C5: on a payload exercising every step, the six structural steps run in
the stated order - comment line stripped, `valid` renamed to `date`, column
names trimmed, timestamps parsed, (station, date) index set, rows sorted
ascending - but the seventh step raises `invalid error value specified`
instead of coercing the measurement columns. -/
theorem C5_steps_order_and_final_step_raises :
    get_weather_parse payload_two_stations = Except.ok frame_two_stations ∧
    get_weather payload_two_stations = Except.error "invalid error value specified" :=
  ⟨by decide, by decide⟩

/-- C6, counterexample: a single intermediate file repeating one
(station, timestamp) pair satisfies cross-group non-overlap vacuously, yet
the merged table keeps the duplicate pair. -/
theorem C6_counterexample :
    ([dup_file].map keys_of).Pairwise List.Disjoint ∧
    merge_step [dup_file] = Except.ok dup_file ∧
    ¬ (keys_of dup_file).Nodup :=
  ⟨by decide, by decide, by decide⟩

/-- C6, amended: for intermediate files whose key sets are pairwise
non-overlapping across groups and duplicate-free within each file, the
merged table's (station, timestamp) index is sorted ascending with no
duplicate pairs. -/
theorem C6_merge_sorted_nodup (fs : List (List WRow)) (t : List WRow)
    (hmerge : merge_step fs = Except.ok t)
    (hdis : (fs.map keys_of).Pairwise List.Disjoint)
    (hnd : ∀ f ∈ fs, (keys_of f).Nodup) :
    (keys_of t).Pairwise key_le ∧ (keys_of t).Nodup := by
  have hne : fs.isEmpty = false := by
    cases h : fs.isEmpty
    · rfl
    · simp only [merge_step, h, if_true] at hmerge
      exact Except.noConfusion hmerge
  simp only [merge_step, hne, Bool.false_eq_true, if_false, Except.ok.injEq] at hmerge
  subst hmerge
  constructor
  · have hs : List.Pairwise row_le (List.insertionSort row_le fs.flatten) :=
      List.sorted_insertionSort row_le fs.flatten
    exact hs.map Prod.fst (fun a b h => h)
  · show (List.map Prod.fst (List.insertionSort row_le fs.flatten)).Nodup
    have hperm : (List.map Prod.fst (List.insertionSort row_le fs.flatten)).Perm
        (List.map Prod.fst fs.flatten) :=
      (List.perm_insertionSort row_le fs.flatten).map Prod.fst
    rw [hperm.nodup_iff, List.map_flatten, List.nodup_flatten]
    refine ⟨?_, hdis⟩
    intro l hl
    rcases List.mem_map.mp hl with ⟨f, hf, rfl⟩
    exact hnd f hf

/-- C6, witness: two disjoint duplicate-free one-row files merge to a table
whose index is sorted with no duplicate pairs. -/
theorem C6_merge_sorted_nodup_witness :
    merge_step [file_amw, file_dsm] = Except.ok (file_amw ++ file_dsm) ∧
    ([file_amw, file_dsm].map keys_of).Pairwise List.Disjoint ∧
    (∀ f ∈ [file_amw, file_dsm], (keys_of f).Nodup) ∧
    ((keys_of (file_amw ++ file_dsm)).Pairwise key_le ∧
      (keys_of (file_amw ++ file_dsm)).Nodup) :=
  ⟨by decide, by decide, by decide,
    C6_merge_sorted_nodup [file_amw, file_dsm] (file_amw ++ file_dsm)
      (by decide) (by decide) (by decide)⟩

/-- C7: when the middle of three group tasks fails, the other two still
produce their intermediate files, the failing group contributes no file,
and the merge succeeds and contains exactly the successful groups' index
pairs; no exception escapes the coordinator or the merge. -/
theorem C7_partial_failure_isolated (a b : List WRow) (e : String) :
    fanout_files [Except.ok a, Except.error e, Except.ok b] = [a, b] ∧
    ∃ t, merge_step (fanout_files [Except.ok a, Except.error e, Except.ok b]) =
        Except.ok t ∧
      ∀ k, k ∈ keys_of t ↔ (k ∈ keys_of a ∨ k ∈ keys_of b) := by
  refine ⟨rfl, List.insertionSort row_le ([a, b] : List (List WRow)).flatten, rfl, ?_⟩
  intro k
  have hperm : (List.map Prod.fst
        (List.insertionSort row_le ([a, b] : List (List WRow)).flatten)).Perm
      (List.map Prod.fst ([a, b] : List (List WRow)).flatten) :=
    (List.perm_insertionSort row_le _).map Prod.fst
  show k ∈ List.map Prod.fst (List.insertionSort row_le _) ↔ _
  rw [hperm.mem_iff]
  simp [keys_of]

/-- C9: every fetch dispatched by the worker uses the default window from
the signature of `get_weather`: start 2017-01-01 and end 2017-01-31; the
worker passes only the station-identifier list. -/
theorem C9_default_window (ids : List String) :
    weather_worker_request ids =
      { start := ⟨2017, 1, 1⟩, stop := ⟨2017, 1, 31⟩,
        stations := station_query ids } ∧
    get_weather_default_start = ⟨2017, 1, 1⟩ ∧
    get_weather_default_stop = ⟨2017, 1, 31⟩ :=
  ⟨rfl, rfl, rfl⟩

/-- C10: when the payload template file is absent, the flights step fails
with file-not-found regardless of whether the cached ZIP or the cached
extracted table exist, because the template is read before any cache
check. -/
theorem C10_template_read_before_cache (zipE h5E : Bool) :
    download_flights_model ⟨false, zipE, h5E⟩ =
      Except.error "FileNotFoundError: modern-1-url.txt" :=
  rfl
